import Mathlib

/-!
Verification of the rx-lib state-communication channel (src/scc.go).

The Go code is a passive shared record with two capability-restricted
handles. We embed it shallowly: the mutable record `SCChan` is passed
explicitly, the two interface types hold the record, and the mutating
method `State` returns the updated record. Go's `byte` is modelled as
`Nat` (only the constants 0..3 ever appear and no arithmetic occurs,
so no wraparound is needed). The variadic `additionalInfo ... string`
parameter is a `List String`.
-/

namespace RxLib

/-- Section A state constants of src/scc.go. -/
def UnableToStart : Nat := 0

def NowActive : Nat := 1

def Failed : Nat := 2

def NowDead : Nat := 3

/-- The data type of an SC channel (struct SCChan in src/scc.go). -/
structure SCChan where
  followerState : Nat
  additionalInfo : String
  deriving DecidableEq, Repr

/-- `NewSCChan` returns `&SCChan{}`: the Go zero value, with
`followerState = 0` and `additionalInfo = ""`. -/
def NewSCChan : SCChan := { followerState := 0, additionalInfo := "" }

/-- The data type of a master interface (struct SCCMInterface). -/
structure SCCMInterface where
  underlyingChan : SCChan
  deriving DecidableEq, Repr

/-- Method `MInterface` on `*SCChan`: mints a master interface bound to
the record. -/
def SCChan.MInterface (scChan : SCChan) : SCCMInterface :=
  { underlyingChan := scChan }

/-- Method `WhatsUp` on `*SCCMInterface`: returns the pair
`(followerState, additionalInfo)` of the underlying record. -/
def SCCMInterface.WhatsUp (mInt : SCCMInterface) : Nat × String :=
  (mInt.underlyingChan.followerState, mInt.underlyingChan.additionalInfo)

/-- The data type of a follower interface (struct SCCFInterface). -/
structure SCCFInterface where
  underlyingChan : SCChan
  deriving DecidableEq, Repr

/-- Method `FInterface` on `*SCChan`: mints a follower interface bound to
the record. -/
def SCChan.FInterface (scChan : SCChan) : SCCFInterface :=
  { underlyingChan := scChan }

/-- Method `State` on `*SCCFInterface` (src/scc.go lines 100-118).
The Go body is:

  fInt.underlyingChan.followerState = UnableToStart
  if len (additionalInfo) > 0 \x7b
      fInt.underlyingChan.additionalInfo = additionalInfo [0]
  \x7d

It writes the constant `UnableToStart` into `followerState` (not the
`state` argument), and copies the first variadic argument into
`additionalInfo` when one is present. We return the updated record. -/
def SCCFInterface.State (fInt : SCCFInterface) (state : Nat)
    (additionalInfo : List String) : SCChan :=
  { followerState := UnableToStart
    additionalInfo :=
      match additionalInfo with
      | [] => fInt.underlyingChan.additionalInfo
      | d :: _ => d }

/-- One external operation on a channel: a follower report (`State` with
its byte argument and variadic description list) or a master query
(`WhatsUp`). -/
inductive Op where
  | report (state : Nat) (info : List String)
  | query
  deriving DecidableEq, Repr

/-- Whether an operation supplies no description: a query, or a report
whose variadic list is empty. -/
def Op.noDesc : Op → Bool
  | .report _ info => info.isEmpty
  | .query => true

/-- Execute a sequence of operations against a record. A report mutates
the record through a follower interface; a query reads through a master
interface and leaves the record unchanged. -/
def run (c : SCChan) : List Op → SCChan
  | [] => c
  | Op.report s info :: rest => run ((SCChan.FInterface c).State s info) rest
  | Op.query :: rest => run c rest

/-- Helper: if a record has `followerState = UnableToStart`, every
sequence of operations preserves this, because `State` always writes
`UnableToStart` and `query` leaves the record unchanged. -/
lemma run_followerState_eq (c : SCChan) (ops : List Op)
    (h : c.followerState = UnableToStart) :
    (run c ops).followerState = UnableToStart := by
  induction ops generalizing c with
  | nil => exact h
  | cons op rest ih =>
    cases op with
    | report s info => exact ih _ rfl
    | query => exact ih _ h

/-- Helper: a sequence of operations in which no operation supplies a
description leaves `additionalInfo` unchanged. -/
lemma run_noDesc_additionalInfo (c : SCChan) (ops : List Op)
    (h : ∀ op ∈ ops, op.noDesc = true) :
    (run c ops).additionalInfo = c.additionalInfo := by
  induction ops generalizing c with
  | nil => rfl
  | cons op rest ih =>
    cases op with
    | report s info =>
      have hop : Op.noDesc (Op.report s info) = true :=
        h _ (List.mem_cons_self _ _)
      have hinfo : info = [] := by
        simpa [Op.noDesc, List.isEmpty_iff] using hop
      subst hinfo
      have := ih ((SCChan.FInterface c).State s [])
        (fun op hop => h op (List.mem_cons_of_mem _ hop))
      simpa [SCCFInterface.State, SCChan.FInterface] using this
    | query =>
      exact ih c (fun op hop => h op (List.mem_cons_of_mem _ hop))

/-- Claim C1: the claim states that after `State(s, d)` a `WhatsUp`
returns `(s, d)`. The code contradicts this (and its own documentation,
which says input 0 is the state of the follower as stored): at
`s = NowActive`, `d = "started"` the query returns
`(UnableToStart, "started")`, not `(NowActive, "started")`. -/
theorem whatsUp_after_report_hardcoded :
    SCCMInterface.WhatsUp
      (SCChan.MInterface
        ((SCChan.FInterface NewSCChan).State NowActive ["started"])) =
      (UnableToStart, "started") ∧
    (UnableToStart, ("started" : String)) ≠ (NowActive, "started") := by
  refine ⟨rfl, ?_⟩
  decide

/-- Claim C2: for every record, state code and variadic description list,
`State` stores `UnableToStart` into `followerState`, regardless of the
state argument. -/
theorem state_stores_unableToStart (c : SCChan) (s : Nat)
    (info : List String) :
    ((SCChan.FInterface c).State s info).followerState = UnableToStart :=
  rfl

/-- Claim C3: a freshly constructed record queried through a master
interface returns `(UnableToStart, "")` before any report. -/
theorem fresh_query_default :
    SCCMInterface.WhatsUp (SCChan.MInterface NewSCChan) =
      (UnableToStart, "") :=
  rfl

/-- Claim C4: after a report that supplies a description `d`, the
record's `additionalInfo` equals `d`, and it stays `d` across every
subsequent sequence of operations that contains no report with a
description. -/
theorem description_persists (c : SCChan) (s : Nat) (d : String)
    (rest : List String) (ops : List Op)
    (h : ∀ op ∈ ops, op.noDesc = true) :
    (run ((SCChan.FInterface c).State s (d :: rest)) ops).additionalInfo =
      d := by
  rw [run_noDesc_additionalInfo _ _ h]
  rfl

/-- Witness for C4 at a concrete input: report `(Failed, "x")`, then a
query and a description-free report; the stored description is still
`"x"`. -/
theorem description_persists_witness :
    (∀ op ∈ [Op.query, Op.report 3 []], op.noDesc = true) ∧
    (run ((SCChan.FInterface NewSCChan).State 2 ["x"])
        [Op.query, Op.report 3 []]).additionalInfo = "x" :=
  ⟨by decide,
   description_persists NewSCChan 2 "x" [] [Op.query, Op.report 3 []]
     (by decide)⟩

/-- Claim C5: a report with no description argument leaves
`additionalInfo` unchanged; the resulting record is the old one with
only `followerState` rewritten. -/
theorem report_no_description_frame (c : SCChan) (s : Nat) :
    (SCChan.FInterface c).State s [] =
      { followerState := UnableToStart
        additionalInfo := c.additionalInfo } :=
  rfl

/-- Claim C6: description arguments beyond the first are ignored: a
report with variadic list `a :: b :: rest` yields exactly the same
record as a report with `[a]`. -/
theorem excess_descriptions_ignored (c : SCChan) (s : Nat) (a b : String)
    (rest : List String) :
    (SCChan.FInterface c).State s (a :: b :: rest) =
      (SCChan.FInterface c).State s [a] :=
  rfl

/-- Claim C7: after any sequence of operations starting from a fresh
record, any two master interfaces minted from the resulting record
return identical pairs from `WhatsUp`. -/
theorem views_share_record (ops : List Op) (m1 m2 : SCCMInterface)
    (h1 : m1 = SCChan.MInterface (run NewSCChan ops))
    (h2 : m2 = SCChan.MInterface (run NewSCChan ops)) :
    m1.WhatsUp = m2.WhatsUp := by
  subst h1
  subst h2
  rfl

/-- Witness for C7 at a concrete input: one report, two master
interfaces, equal query results. -/
theorem views_share_record_witness :
    (SCChan.MInterface (run NewSCChan [Op.report 2 ["disk full"]]) =
      SCChan.MInterface (run NewSCChan [Op.report 2 ["disk full"]])) ∧
    SCCMInterface.WhatsUp
        (SCChan.MInterface (run NewSCChan [Op.report 2 ["disk full"]])) =
      SCCMInterface.WhatsUp
        (SCChan.MInterface (run NewSCChan [Op.report 2 ["disk full"]])) :=
  ⟨rfl, views_share_record [Op.report 2 ["disk full"]] _ _ rfl rfl⟩

/-- Claim C8: in every record reachable from `NewSCChan` by any sequence
of report and query operations, `followerState` is one of the four
enumerated values. -/
theorem reachable_state_enumerated (ops : List Op) :
    (run NewSCChan ops).followerState ∈
      [UnableToStart, NowActive, Failed, NowDead] := by
  have h := run_followerState_eq NewSCChan ops rfl
  rw [h]
  simp

/-- Claim C9: `WhatsUp` is a pure read: a query step leaves the record
unchanged, and two consecutive queries with no intervening report return
the same pair. -/
theorem whatsUp_pure (c : SCChan) :
    run c [Op.query] = c ∧
    SCCMInterface.WhatsUp (SCChan.MInterface (run c [Op.query])) =
      SCCMInterface.WhatsUp (SCChan.MInterface c) :=
  ⟨rfl, rfl⟩

/-- Claim C10: in every record reachable from `NewSCChan`,
`followerState` equals `UnableToStart` exactly, since `State` hardcodes
that constant; so the first component of `WhatsUp` is always
`UnableToStart`. -/
theorem reachable_state_always_unableToStart (ops : List Op) :
    (run NewSCChan ops).followerState = UnableToStart ∧
    (SCCMInterface.WhatsUp (SCChan.MInterface (run NewSCChan ops))).1 =
      UnableToStart := by
  have h := run_followerState_eq NewSCChan ops rfl
  exact ⟨h, h⟩

end RxLib
